import Mathlib

/-!
Shallow embedding of `src/data_generation/data_generator.py` from the
`ab-test-advanced-toolkit` repository, together with theorems checking the
natural-language specification against it.

The Python module has two core functions:

* `generate_synthetic_data(num_users, countries, platforms, user_segments,
  ab_groups, base_increase_percentage, noise_level=1.0, seed=40)` builds a
  population table, one row per simulated user, drawing all randomness from
  numpy's global generator after `np.random.seed(seed)`.
* `create_dataframes(df)` reshapes the population table into an event log,
  a group-allocation table and a user-properties table.

Modelling choices:

* Python floats are modelled by `ℚ`; every arithmetic operation of the source
  is translated literally (the distributional reading of the numpy samplers is
  kept by the canonical parameterisations below).
* numpy's seeded global stream is modelled by a `Draws` structure: one
  function for the uniform-[0,1) raw draws and one for the standard-normal
  raw draws, indexed by the draw site (the position of the `np.random.*` call
  in program order) and the user index.  Every call of the source draws
  `num_users` values at a fixed site, so a (site, user) indexing is a faithful
  rendering of positions in the single global stream; in particular both
  branch arrays of the `np.where` at the group-effect step are always drawn,
  exactly as `np.where` evaluates both of its argument arrays.
* `np.random.choice(a, n)` returns, per user, element `⌊u·len(a)⌋` of `a` for
  a uniform raw `u`; `np.random.choice(a, n, p=[1/3,1/3,1/3])` inverts the cdf,
  which for equal weights is again `⌊u·3⌋`.  `np.random.randint(18, 65, n)` is
  `18 + ⌊u·47⌋`.  `np.random.uniform(lo, hi, n)` is `lo + (hi - lo)·u` and
  `np.random.normal(m, s, n)` is `m + s·z` for a standard-normal raw `z`.
* The failure behaviour of the numpy calls is embedded in `genError?`, in the
  order the calls execute: `np.random.choice` raises on an empty vocabulary
  and on a negative size, raises when `p` has a different size than `a`, and
  `np.random.normal` raises on a negative scale.  `np.random.uniform` accepts
  `lo > hi` silently, so a negative `base_increase_percentage` does not raise.
* `np.sin` applied to a float is transcendental; it is kept abstract as an
  explicit function argument `sf : ℚ → ℚ`, which no theorem below interprets.
-/

namespace DataGen

/-- A calendar date, modelling the `pd.to_datetime` timestamps. -/
structure Date where
  year : Nat
  month : Nat
  day : Nat
deriving DecidableEq, Repr

/-- Strict chronological order on dates (lexicographic on year, month, day). -/
def Date.Before (a b : Date) : Prop :=
  a.year < b.year ∨ (a.year = b.year ∧
    (a.month < b.month ∨ (a.month = b.month ∧ a.day < b.day)))

instance : DecidablePred fun p : Date × Date => p.1.Before p.2 := by
  intro p
  unfold Date.Before
  infer_instance

instance (a b : Date) : Decidable (a.Before b) := by
  unfold Date.Before
  infer_instance

/-- One row of the population table returned by `generate_synthetic_data`
(the dataframe columns, in source order). -/
structure UserRow where
  userid : Nat
  country : String
  platform : String
  user_segment : String
  abgroup : String
  age : Nat
  engagement_score : ℚ
  country_idx : Nat
  platform_idx : Nat
  segment_idx : Nat
  value : ℚ
  pre_test_value : ℚ
deriving DecidableEq, Repr

/-- The raw randomness consumed by one invocation: `unif s i` is the i-th
user's uniform-[0,1) raw draw of site `s`, `norm s i` the i-th user's
standard-normal raw draw of site `s` (sites in program order). -/
structure Draws where
  unif : Nat → Nat → ℚ
  norm : Nat → Nat → ℚ

/-- A draw source is valid when every uniform raw draw lies in [0,1), as
numpy's samplers guarantee. -/
def Draws.Valid (d : Draws) : Prop :=
  ∀ s i, 0 ≤ d.unif s i ∧ d.unif s i < 1

/-- Uniform-draw site of `np.random.choice(countries, num_users)`. -/
def countrySite : Nat := 0
/-- Uniform-draw site of `np.random.choice(platforms, num_users)`. -/
def platformSite : Nat := 1
/-- Uniform-draw site of `np.random.choice(user_segments, num_users)`. -/
def segmentSite : Nat := 2
/-- Uniform-draw site of `np.random.choice(ab_groups, num_users, p=[1/3]*3)`. -/
def abgroupSite : Nat := 3
/-- Uniform-draw site of `np.random.randint(18, 65, num_users)`. -/
def ageSite : Nat := 4
/-- Uniform-draw site of `np.random.rand(num_users)`. -/
def engagementSite : Nat := 5
/-- Uniform-draw site of the country-effect `np.random.uniform(-1, 5, num_users)`. -/
def countryMultSite : Nat := 6
/-- Uniform-draw site of the platform-effect `np.random.uniform(-1, 5, num_users)`. -/
def platformMultSite : Nat := 7
/-- Uniform-draw site of the segment-effect `np.random.uniform(-1, 5, num_users)`. -/
def segmentMultSite : Nat := 8
/-- Uniform-draw site of the treatment-branch `np.random.uniform(-1*b, b*3, num_users)`. -/
def treatSite : Nat := 9
/-- Uniform-draw site of the control-branch `np.random.uniform(-2*b, b*2, num_users)`. -/
def ctrlSite : Nat := 10
/-- Uniform-draw site of the `np.random.uniform(-1, 1, num_users)` factor of the
sine term of `pre_test_value`. -/
def sinMultSite : Nat := 11

/-- Normal-draw site of `np.random.normal(0, noise_level, num_users)`. -/
def valueNoiseSite : Nat := 0
/-- Normal-draw site of `np.random.normal(1, 0.5, num_users)`. -/
def preMulSite : Nat := 1
/-- Normal-draw site of `np.random.normal(0, 0.05, num_users)`. -/
def preFacSite : Nat := 2
/-- Normal-draw site of `np.random.normal(-1, 1, num_users)`. -/
def preAddSite : Nat := 3

/-- `np.random.uniform(lo, hi)` applied to a uniform-[0,1) raw draw. -/
def uniformIn (lo hi u : ℚ) : ℚ := lo + (hi - lo) * u

/-- The index `np.random.choice` picks from a vocabulary of length `len`
given a uniform-[0,1) raw draw. -/
def choiceIdx (len : Nat) (u : ℚ) : Nat := (Int.floor (u * len)).toNat

/-- The parameters of `generate_synthetic_data` (the seed is handled
separately through `Draws`). -/
structure GenParams where
  numUsers : Int
  countries : List String
  platforms : List String
  userSegments : List String
  abGroups : List String
  baseIncreasePercentage : ℚ
  noiseLevel : ℚ
deriving DecidableEq, Repr

/-- Column `country` of user `i`: `np.random.choice(countries, num_users)`. -/
def countryOf (p : GenParams) (d : Draws) (i : Nat) : String :=
  p.countries.getD (choiceIdx p.countries.length (d.unif countrySite i)) ""

/-- Column `platform` of user `i`: `np.random.choice(platforms, num_users)`. -/
def platformOf (p : GenParams) (d : Draws) (i : Nat) : String :=
  p.platforms.getD (choiceIdx p.platforms.length (d.unif platformSite i)) ""

/-- Column `user_segment` of user `i`: `np.random.choice(user_segments, num_users)`. -/
def segmentOf (p : GenParams) (d : Draws) (i : Nat) : String :=
  p.userSegments.getD (choiceIdx p.userSegments.length (d.unif segmentSite i)) ""

/-- Column `abgroup` of user `i`:
`np.random.choice(ab_groups, num_users, p=[1/3, 1/3, 1/3])`. -/
def abgroupOf (p : GenParams) (d : Draws) (i : Nat) : String :=
  p.abGroups.getD (choiceIdx p.abGroups.length (d.unif abgroupSite i)) ""

/-- Column `age` of user `i`: `np.random.randint(18, 65, num_users)`. -/
def ageOf (d : Draws) (i : Nat) : Nat :=
  18 + choiceIdx 47 (d.unif ageSite i)

/-- Column `engagement_score` of user `i`: `np.random.rand(num_users) * 10`. -/
def engagementOf (d : Draws) (i : Nat) : ℚ :=
  d.unif engagementSite i * 10

/-- The base effect as a function of the two covariates it is built from. -/
def baseEffect (age : Nat) (eng : ℚ) : ℚ := 10 + (age : ℚ) / 10 + eng

/-- `base_value = 10 + df['age'] / 10 + df['engagement_score']` for user `i`
(the parameter record is unused: the base effect depends only on the two
covariates; the argument is kept so all per-user columns share one shape). -/
def base_value (_p : GenParams) (d : Draws) (i : Nat) : ℚ :=
  10 + (ageOf d i : ℚ) / 10 + engagementOf d i

/-- Column `country_idx`: `countries.index(x) % 3`. -/
def countryIdxOf (p : GenParams) (d : Draws) (i : Nat) : Nat :=
  p.countries.indexOf (countryOf p d i) % 3

/-- Column `platform_idx`: `platforms.index(x) % 2`. -/
def platformIdxOf (p : GenParams) (d : Draws) (i : Nat) : Nat :=
  p.platforms.indexOf (platformOf p d i) % 2

/-- Column `segment_idx`: `user_segments.index(x) % 4`. -/
def segmentIdxOf (p : GenParams) (d : Draws) (i : Nat) : Nat :=
  p.userSegments.indexOf (segmentOf p d i) % 4

/-- `country_effect = np.random.uniform(-1, 5, num_users) * df['country_idx']`. -/
def countryEffectOf (p : GenParams) (d : Draws) (i : Nat) : ℚ :=
  uniformIn (-1) 5 (d.unif countryMultSite i) * (countryIdxOf p d i : ℚ)

/-- `platform_effect = np.random.uniform(-1, 5, num_users) * df['platform_idx']`. -/
def platformEffectOf (p : GenParams) (d : Draws) (i : Nat) : ℚ :=
  uniformIn (-1) 5 (d.unif platformMultSite i) * (platformIdxOf p d i : ℚ)

/-- `segment_effect = np.random.uniform(-1, 5, num_users) * df['segment_idx']`. -/
def segmentEffectOf (p : GenParams) (d : Draws) (i : Nat) : ℚ :=
  uniformIn (-1) 5 (d.unif segmentMultSite i) * (segmentIdxOf p d i : ℚ)

/-- `category_effect = country_effect + platform_effect + segment_effect`. -/
def categoryEffectOf (p : GenParams) (d : Draws) (i : Nat) : ℚ :=
  countryEffectOf p d i + platformEffectOf p d i + segmentEffectOf p d i

/-- Lower end of the treatment-branch range `np.random.uniform(-1*b, b*3, ...)`. -/
def treatLo (p : GenParams) : ℚ := -1 * p.baseIncreasePercentage

/-- Upper end of the treatment-branch range. -/
def treatHi (p : GenParams) : ℚ := p.baseIncreasePercentage * 3

/-- Lower end of the control-branch range `np.random.uniform(-2*b, b*2, ...)`. -/
def ctrlLo (p : GenParams) : ℚ := -2 * p.baseIncreasePercentage

/-- Upper end of the control-branch range. -/
def ctrlHi (p : GenParams) : ℚ := p.baseIncreasePercentage * 2

/-- `group_effect = np.where(df['abgroup'] == 'b', uniform(-1*b, b*3),
uniform(-2*b, b*2))` for user `i`; `np.where` draws both branch arrays. -/
def groupEffectOf (p : GenParams) (d : Draws) (i : Nat) : ℚ :=
  if abgroupOf p d i = "b" then
    uniformIn (treatLo p) (treatHi p) (d.unif treatSite i)
  else
    uniformIn (ctrlLo p) (ctrlHi p) (d.unif ctrlSite i)

/-- `df['value'] = base_value * (1 + category_effect) * (1 + group_effect)
+ np.random.normal(0, noise_level, num_users)` for user `i`. -/
def valueOf (p : GenParams) (d : Draws) (i : Nat) : ℚ :=
  base_value p d i * (1 + categoryEffectOf p d i) * (1 + groupEffectOf p d i)
    + p.noiseLevel * d.norm valueNoiseSite i

/-- `df['pre_test_value'] = base_value * (1 + normal(1,0.5) * category_effect)
* (1 + normal(0,0.05)) + 0.5 * sin(engagement/2) * uniform(-1,1)
+ normal(-1,1)` for user `i`; `sf` models `np.sin`. -/
def preTestValueOf (p : GenParams) (sf : ℚ → ℚ) (d : Draws) (i : Nat) : ℚ :=
  base_value p d i * (1 + (1 + 1/2 * d.norm preMulSite i) * categoryEffectOf p d i)
      * (1 + 1/20 * d.norm preFacSite i)
    + 1/2 * sf (engagementOf d i / 2) * uniformIn (-1) 1 (d.unif sinMultSite i)
    + (-1 + d.norm preAddSite i)

/-- The population-table row of user `i` (0-based; `userid` is 1-based). -/
def userRow (p : GenParams) (sf : ℚ → ℚ) (d : Draws) (i : Nat) : UserRow :=
  { userid := i + 1
    country := countryOf p d i
    platform := platformOf p d i
    user_segment := segmentOf p d i
    abgroup := abgroupOf p d i
    age := ageOf d i
    engagement_score := engagementOf d i
    country_idx := countryIdxOf p d i
    platform_idx := platformIdxOf p d i
    segment_idx := segmentIdxOf p d i
    value := valueOf p d i
    pre_test_value := preTestValueOf p sf d i }

/-- The full population table: one row per user, `userid` densely 1..N. -/
def genRows (p : GenParams) (sf : ℚ → ℚ) (d : Draws) : List UserRow :=
  (List.range p.numUsers.toNat).map (userRow p sf d)

/-- The errors the numpy calls of `generate_synthetic_data` can raise
(all surface as Python `ValueError`s). -/
inductive GenError where
  /-- `np.random.choice`: `a cannot be empty unless no samples are taken`
  (raised only when the requested sample count is nonzero). -/
  | emptyVocabulary : GenError
  /-- `np.random.choice`: `negative dimensions are not allowed`. -/
  | negativeDimensions : GenError
  /-- `np.random.choice`: `a and p must have same size`. -/
  | probSizeMismatch : GenError
  /-- `np.random.normal`: `scale < 0`. -/
  | negativeScale : GenError
deriving DecidableEq, Repr

/-- The first error `generate_synthetic_data` raises, in the order the numpy
calls execute, or `none` when the call returns a table.  `np.random.choice`
rejects an empty vocabulary only when samples are taken (`np.prod(size) != 0`,
message `a cannot be empty unless no samples are taken`), so each emptiness
check is conditional on `num_users ≠ 0`; the `p`-vs-`a` size check of the
abgroup call and the scale check of `np.random.normal` are unconditional on
the sample count. -/
def genError? (p : GenParams) : Option GenError :=
  if p.countries = [] ∧ p.numUsers ≠ 0 then some .emptyVocabulary
  else if p.numUsers < 0 then some .negativeDimensions
  else if p.platforms = [] ∧ p.numUsers ≠ 0 then some .emptyVocabulary
  else if p.userSegments = [] ∧ p.numUsers ≠ 0 then some .emptyVocabulary
  else if p.abGroups = [] ∧ p.numUsers ≠ 0 then some .emptyVocabulary
  else if p.abGroups.length ≠ 3 then some .probSizeMismatch
  else if p.noiseLevel < 0 then some .negativeScale
  else none

/-- `generate_synthetic_data`: the population table, or the error the first
failing numpy call raises. -/
def generate_synthetic_data (p : GenParams) (sf : ℚ → ℚ) (d : Draws) :
    Except GenError (List UserRow) :=
  match genError? p with
  | some e => .error e
  | none => .ok (genRows p sf d)

/-- Timestamp of the pre-period purchase events (`event_data2`). -/
def preDate : Date := ⟨2022, 12, 1⟩

/-- Timestamp of the allocation table (`user_allocations`). -/
def allocDate : Date := ⟨2022, 12, 5⟩

/-- Timestamp of the post-period purchase events (`event_data1`). -/
def postDate : Date := ⟨2022, 12, 10⟩

/-- One row of the event log. -/
structure EventRow where
  timestamp : Date
  userid : Nat
  event_name : String
  purchase_value : ℚ
deriving DecidableEq, Repr

/-- One row of the allocation table. -/
structure AllocationRow where
  timestamp : Date
  userid : Nat
  abgroup : String
deriving DecidableEq, Repr

/-- One row of the properties table. -/
structure PropertyRow where
  userid : Nat
  age : Nat
  country : String
  device_type : String
  membership_status : String
deriving DecidableEq, Repr

/-- A user's row of `event_data1` (post period, `purchase_value = value`). -/
def postEvent (r : UserRow) : EventRow :=
  ⟨postDate, r.userid, "purchase", r.value⟩

/-- A user's row of `event_data2` (pre period, `purchase_value = pre_test_value`). -/
def preEvent (r : UserRow) : EventRow :=
  ⟨preDate, r.userid, "purchase", r.pre_test_value⟩

/-- A user's row of `user_allocations`. -/
def allocationOf (r : UserRow) : AllocationRow :=
  ⟨allocDate, r.userid, r.abgroup⟩

/-- A user's row of `user_properties`. -/
def propertyOf (r : UserRow) : PropertyRow :=
  ⟨r.userid, r.age, r.country, r.platform, "Free"⟩

/-- `create_dataframes`: the event log (`pd.concat([event_data1, event_data2])`,
post rows first), the allocation table and the properties table. -/
def create_dataframes (df : List UserRow) :
    List EventRow × List AllocationRow × List PropertyRow :=
  (df.map postEvent ++ df.map preEvent, df.map allocationOf, df.map propertyOf)

/-- Modelled from the spec: `np.random.seed(seed)` fixes the global Mersenne
Twister stream, so every raw draw is a pure function of the seed ("Fixing
`seed` fixes every draw").  The Mersenne Twister itself is not part of this
repository; it is modelled by a concrete deterministic mixing function whose
uniform raws land in [0,1). -/
def mixBits (s n : Nat) : Nat :=
  (s * 2654435761 + n * 40503 + 12345) % 65536

/-- Modelled from the spec: the draw source determined by a seed (see
`mixBits`).  Uniform raw draws are `mixBits`-values scaled into [0,1). -/
def sourceOfSeed (s : Nat) : Draws :=
  { unif := fun site i => (mixBits s (site * 131071 + i) : ℚ) / 65536
    norm := fun site i => (mixBits (s + 1) (site * 131071 + i) : ℚ) / 32768 - 1 }

theorem mixBits_lt (s n : Nat) : mixBits s n < 65536 :=
  Nat.mod_lt _ (by decide)

theorem sourceOfSeed_valid (s : Nat) : (sourceOfSeed s).Valid := by
  intro site i
  unfold sourceOfSeed
  constructor
  · exact div_nonneg (by positivity) (by norm_num)
  · rw [div_lt_one (by norm_num)]
    exact_mod_cast mixBits_lt s (site * 131071 + i)

theorem generate_ok_of (p : GenParams) (sf : ℚ → ℚ) (d : Draws)
    (h : genError? p = none) :
    generate_synthetic_data p sf d = .ok (genRows p sf d) := by
  unfold generate_synthetic_data
  rw [h]

theorem generate_ok_inv (p : GenParams) (sf : ℚ → ℚ) (d : Draws)
    (rows : List UserRow) (h : generate_synthetic_data p sf d = .ok rows) :
    genError? p = none ∧ rows = genRows p sf d := by
  unfold generate_synthetic_data at h
  cases he : genError? p <;> rw [he] at h
  · simpa using h.symm
  · simp at h

theorem choiceIdx_lt (len : Nat) (u : ℚ) (h0 : 0 ≤ u) (h1 : u < 1)
    (hlen : 0 < len) : choiceIdx len u < len := by
  unfold choiceIdx
  have hnn : (0 : ℤ) ≤ Int.floor (u * len) := by
    apply Int.floor_nonneg.mpr
    positivity
  have hlt : Int.floor (u * len) < (len : ℤ) := by
    apply Int.floor_lt.mpr
    push_cast
    calc u * len < 1 * len := by
          apply mul_lt_mul_of_pos_right h1
          exact_mod_cast hlen
      _ = len := one_mul _
  omega

theorem choiceIdx_len_one (u : ℚ) (h0 : 0 ≤ u) (h1 : u < 1) :
    choiceIdx 1 u = 0 := by
  have := choiceIdx_lt 1 u h0 h1 (by decide)
  omega

/-- Filtering a key out of a table whose i-th row has key `i + 1` yields
exactly that row. -/
theorem filter_map_range_key {β : Type} (f : Nat → β) (g : β → Nat)
    (hg : ∀ i, g (f i) = i + 1) (n uid : Nat) (h1 : 1 ≤ uid) (h2 : uid ≤ n) :
    ((List.range n).map f).filter (fun b => g b == uid) = [f (uid - 1)] := by
  induction n with
  | zero => omega
  | succ n ih =>
    rw [List.range_succ, List.map_append, List.filter_append]
    by_cases huid : uid = n + 1
    · subst huid
      have hnil : ((List.range n).map f).filter (fun b => g b == n + 1) = [] := by
        rw [List.filter_eq_nil_iff]
        intro b hb
        obtain ⟨i, hi, rfl⟩ := List.mem_map.mp hb
        have hilt : i < n := List.mem_range.mp hi
        simp only [hg i, beq_iff_eq]
        omega
      rw [hnil, List.nil_append]
      simp [hg n]
    · have h2' : uid ≤ n := by omega
      rw [ih h2']
      have hone : ([f n].filter (fun b => g b == uid)) = [] := by
        simp only [List.filter_cons, List.filter_nil, hg n, beq_iff_eq]
        have : ¬ (n + 1 = uid) := by omega
        simp [this]
      rw [List.map_cons, List.map_nil, hone, List.append_nil]

/-- A draw from `np.random.uniform(lo, hi)` lies between `lo` and `hi`. -/
theorem uniformIn_mem (lo hi u : ℚ) (hle : lo ≤ hi) (h0 : 0 ≤ u) (h1 : u < 1) :
    lo ≤ uniformIn lo hi u ∧ uniformIn lo hi u ≤ hi := by
  unfold uniformIn
  constructor
  · nlinarith
  · nlinarith

/-- A small concrete parameter record (shape of the reference invocation,
shrunk to two users). -/
def sampleParams : GenParams :=
  { numUsers := 2
    countries := ["US", "UK"]
    platforms := ["iOS", "Android"]
    userSegments := ["Segment_1", "Segment_2"]
    abGroups := ["a1", "a2", "b"]
    baseIncreasePercentage := 1/20
    noiseLevel := 1 }

/-- The single-element-vocabulary scenario of the spec. -/
def scenarioParams (bip nl : ℚ) : GenParams :=
  { numUsers := 5
    countries := ["US"]
    platforms := ["iOS"]
    userSegments := ["Segment_1"]
    abGroups := ["a1", "a2", "b"]
    baseIncreasePercentage := bip
    noiseLevel := nl }

/-- A concrete stand-in for the abstract `np.sin` argument. -/
def sinZero : ℚ → ℚ := fun _ => 0

/-- C1: invoking the Synthesizer twice with identical parameters
`num_users, countries, platforms, user_segments, ab_groups,
base_increase_percentage, noise_level` and the same seed returns two
population tables that are identical in every column of every row. -/
theorem generate_deterministic (p₁ p₂ : GenParams) (sf : ℚ → ℚ) (s₁ s₂ : Nat)
    (hp : p₁ = p₂) (hs : s₁ = s₂) :
    generate_synthetic_data p₁ sf (sourceOfSeed s₁)
      = generate_synthetic_data p₂ sf (sourceOfSeed s₂) := by
  rw [hp, hs]

theorem generate_deterministic_witness :
    generate_synthetic_data sampleParams sinZero (sourceOfSeed 40)
      = generate_synthetic_data sampleParams sinZero (sourceOfSeed 40) :=
  generate_deterministic sampleParams sampleParams sinZero 40 40 rfl rfl

/-- C2: the post-period outcome `value` equals
base_effect × (1 + category_effect) × (1 + group_effect) plus the Gaussian
noise draw `noise_level · z` (`np.random.normal(0, noise_level)`), where the
base effect `10 + age/10 + engagement_score` is strictly increasing in age
and in engagement score. -/
theorem value_formula_base_monotone (p : GenParams) (d : Draws) (i : Nat)
    (a a₁ a₂ : Nat) (e e₁ e₂ : ℚ) (ha : a₁ < a₂) (he : e₁ < e₂) :
    valueOf p d i
        = baseEffect (ageOf d i) (engagementOf d i) * (1 + categoryEffectOf p d i)
            * (1 + groupEffectOf p d i) + p.noiseLevel * d.norm valueNoiseSite i
      ∧ base_value p d i = baseEffect (ageOf d i) (engagementOf d i)
      ∧ baseEffect a₁ e < baseEffect a₂ e
      ∧ baseEffect a e₁ < baseEffect a e₂ := by
  refine ⟨rfl, rfl, ?_, ?_⟩
  · unfold baseEffect
    have hq : (a₁ : ℚ) < a₂ := by exact_mod_cast ha
    linarith
  · unfold baseEffect
    linarith

theorem value_formula_base_monotone_witness :
    valueOf sampleParams (sourceOfSeed 40) 0
        = baseEffect (ageOf (sourceOfSeed 40) 0) (engagementOf (sourceOfSeed 40) 0)
            * (1 + categoryEffectOf sampleParams (sourceOfSeed 40) 0)
            * (1 + groupEffectOf sampleParams (sourceOfSeed 40) 0)
          + sampleParams.noiseLevel * (sourceOfSeed 40).norm valueNoiseSite 0
      ∧ base_value sampleParams (sourceOfSeed 40) 0
          = baseEffect (ageOf (sourceOfSeed 40) 0) (engagementOf (sourceOfSeed 40) 0)
      ∧ baseEffect 20 0 < baseEffect 30 0
      ∧ baseEffect 25 0 < baseEffect 25 1 :=
  value_formula_base_monotone sampleParams (sourceOfSeed 40) 0
    25 20 30 0 0 1 (by decide) (by decide)

/-- C3 counterexample: the treatment range is NOT strictly wider than the
non-treatment range — at base_increase_percentage = 1/20 (the reference
value) both ranges have the same width 4·(1/20). -/
theorem treat_range_not_strictly_wider :
    ¬ (treatHi sampleParams - treatLo sampleParams
        > ctrlHi sampleParams - ctrlLo sampleParams) := by
  with_unfolding_all decide

/-- C3 (amended): the group effect is drawn from one of two uniform ranges
selected by whether `abgroup` equals the treatment label; the two ranges have
EQUAL width 4·base_increase_percentage, the treatment range (-b, 3b) is
shifted toward positive values (midpoint b, asymmetric around zero), and the
non-treatment range (-2b, 2b) is centered at zero. -/
theorem group_effect_range_characterization (p : GenParams) (d : Draws)
    (i : Nat) (hv : d.Valid) (hb : 0 ≤ p.baseIncreasePercentage) :
    treatHi p - treatLo p = 4 * p.baseIncreasePercentage
    ∧ ctrlHi p - ctrlLo p = 4 * p.baseIncreasePercentage
    ∧ treatLo p + treatHi p = 2 * p.baseIncreasePercentage
    ∧ ctrlLo p + ctrlHi p = 0
    ∧ (abgroupOf p d i = "b" →
        treatLo p ≤ groupEffectOf p d i ∧ groupEffectOf p d i ≤ treatHi p)
    ∧ (abgroupOf p d i ≠ "b" →
        ctrlLo p ≤ groupEffectOf p d i ∧ groupEffectOf p d i ≤ ctrlHi p) := by
  refine ⟨by unfold treatHi treatLo; ring, by unfold ctrlHi ctrlLo; ring,
    by unfold treatHi treatLo; ring, by unfold ctrlHi ctrlLo; ring, ?_, ?_⟩
  · intro h
    unfold groupEffectOf
    rw [if_pos h]
    obtain ⟨hu0, hu1⟩ := hv treatSite i
    apply uniformIn_mem _ _ _ _ hu0 hu1
    unfold treatLo treatHi
    linarith
  · intro h
    unfold groupEffectOf
    rw [if_neg h]
    obtain ⟨hu0, hu1⟩ := hv ctrlSite i
    apply uniformIn_mem _ _ _ _ hu0 hu1
    unfold ctrlLo ctrlHi
    linarith

theorem group_effect_range_characterization_witness :
    treatHi sampleParams - treatLo sampleParams
        = 4 * sampleParams.baseIncreasePercentage
    ∧ ctrlHi sampleParams - ctrlLo sampleParams
        = 4 * sampleParams.baseIncreasePercentage
    ∧ treatLo sampleParams + treatHi sampleParams
        = 2 * sampleParams.baseIncreasePercentage
    ∧ ctrlLo sampleParams + ctrlHi sampleParams = 0
    ∧ (abgroupOf sampleParams (sourceOfSeed 40) 0 = "b" →
        treatLo sampleParams ≤ groupEffectOf sampleParams (sourceOfSeed 40) 0
        ∧ groupEffectOf sampleParams (sourceOfSeed 40) 0 ≤ treatHi sampleParams)
    ∧ (abgroupOf sampleParams (sourceOfSeed 40) 0 ≠ "b" →
        ctrlLo sampleParams ≤ groupEffectOf sampleParams (sourceOfSeed 40) 0
        ∧ groupEffectOf sampleParams (sourceOfSeed 40) 0 ≤ ctrlHi sampleParams) :=
  group_effect_range_characterization sampleParams (sourceOfSeed 40) 0
    (sourceOfSeed_valid 40) (by with_unfolding_all decide)

/-- C4 counterexample: at num_users = 0 (a non-positive population size, where
the claim demands an InvalidParameters error) the code raises nothing and
returns an empty table. -/
theorem zero_users_returns_table :
    generate_synthetic_data
        { sampleParams with numUsers := 0 } sinZero (sourceOfSeed 40)
      = .ok [] := by
  rw [generate_ok_of _ _ _ (by decide)]
  rfl

/-- C4 (amended): the generator fails if and only if num_users is strictly
negative, or num_users ≠ 0 and one of countries/platforms/user_segments/
ab_groups is empty, or ab_groups does not have exactly 3 labels, or
noise_level is negative.  At num_users = 0 empty vocabularies are accepted
(`a cannot be empty unless no samples are taken`) and an empty table is
returned; repeated labels among the 3 and a negative
base_increase_percentage never raise; and the errors are numpy ValueErrors,
not a dedicated InvalidParameters kind. -/
theorem generate_error_characterization (p : GenParams) (sf : ℚ → ℚ)
    (d : Draws) :
    (∃ e, generate_synthetic_data p sf d = .error e)
      ↔ (p.numUsers < 0
          ∨ (p.numUsers ≠ 0 ∧ (p.countries = [] ∨ p.platforms = []
              ∨ p.userSegments = [] ∨ p.abGroups = []))
          ∨ p.abGroups.length ≠ 3 ∨ p.noiseLevel < 0) := by
  unfold generate_synthetic_data genError?
  split_ifs with h1 h2 h3 h4 h5 h6 h7 <;> simp_all
  tauto

theorem generate_error_characterization_witness :
    (∃ e, generate_synthetic_data sampleParams sinZero (sourceOfSeed 40)
        = .error e)
      ↔ (sampleParams.numUsers < 0
          ∨ (sampleParams.numUsers ≠ 0 ∧ (sampleParams.countries = []
              ∨ sampleParams.platforms = [] ∨ sampleParams.userSegments = []
              ∨ sampleParams.abGroups = []))
          ∨ sampleParams.abGroups.length ≠ 3
          ∨ sampleParams.noiseLevel < 0) :=
  generate_error_characterization sampleParams sinZero (sourceOfSeed 40)

/-- C5: each derived bucket is the value's first index in its vocabulary
modulo K (K = 3 for country, 2 for platform, 4 for segment), hence lies in
[0, K); and a bucket of 0 makes that attribute's contribution to the category
effect exactly 0, whatever the per-user random multiplier. -/
theorem bucket_invariants (p : GenParams) (d : Draws) (i : Nat) :
    countryIdxOf p d i = p.countries.indexOf (countryOf p d i) % 3
    ∧ platformIdxOf p d i = p.platforms.indexOf (platformOf p d i) % 2
    ∧ segmentIdxOf p d i = p.userSegments.indexOf (segmentOf p d i) % 4
    ∧ countryIdxOf p d i < 3
    ∧ platformIdxOf p d i < 2
    ∧ segmentIdxOf p d i < 4
    ∧ (countryIdxOf p d i = 0 → countryEffectOf p d i = 0)
    ∧ (platformIdxOf p d i = 0 → platformEffectOf p d i = 0)
    ∧ (segmentIdxOf p d i = 0 → segmentEffectOf p d i = 0) := by
  refine ⟨rfl, rfl, rfl, Nat.mod_lt _ (by decide), Nat.mod_lt _ (by decide),
    Nat.mod_lt _ (by decide), ?_, ?_, ?_⟩
  · intro h
    unfold countryEffectOf
    rw [h]
    simp
  · intro h
    unfold platformEffectOf
    rw [h]
    simp
  · intro h
    unfold segmentEffectOf
    rw [h]
    simp

theorem bucket_invariants_witness :
    countryIdxOf (scenarioParams (1/20) 1) (sourceOfSeed 40) 0 < 3
    ∧ countryEffectOf (scenarioParams (1/20) 1) (sourceOfSeed 40) 0 = 0
    ∧ platformEffectOf (scenarioParams (1/20) 1) (sourceOfSeed 40) 0 = 0
    ∧ segmentEffectOf (scenarioParams (1/20) 1) (sourceOfSeed 40) 0 = 0 :=
  ⟨(bucket_invariants (scenarioParams (1/20) 1) (sourceOfSeed 40) 0).2.2.2.1,
   (bucket_invariants (scenarioParams (1/20) 1) (sourceOfSeed 40)
      0).2.2.2.2.2.2.1 (by with_unfolding_all decide),
   (bucket_invariants (scenarioParams (1/20) 1) (sourceOfSeed 40)
      0).2.2.2.2.2.2.2.1 (by with_unfolding_all decide),
   (bucket_invariants (scenarioParams (1/20) 1) (sourceOfSeed 40)
      0).2.2.2.2.2.2.2.2 (by with_unfolding_all decide)⟩

/-- C7: the projected tables carry the fixed timestamps day 1 (pre-period
events), day 5 (allocations) and day 10 (post-period events) of December
2022, and for every userid of the allocation table there are pre- and
post-period events for it whose timestamps straddle the allocation timestamp:
pre < allocation < post. -/
theorem timestamp_ordering (rows : List UserRow) (ev : List EventRow)
    (alloc : List AllocationRow) (props : List PropertyRow)
    (hc : create_dataframes rows = (ev, alloc, props)) :
    preDate = ⟨2022, 12, 1⟩ ∧ allocDate = ⟨2022, 12, 5⟩
    ∧ postDate = ⟨2022, 12, 10⟩
    ∧ Date.Before preDate allocDate ∧ Date.Before allocDate postDate
    ∧ ∀ a ∈ alloc, ∃ e₁, e₁ ∈ ev ∧ ∃ e₂, e₂ ∈ ev
        ∧ e₁.userid = a.userid ∧ e₂.userid = a.userid
        ∧ e₁.timestamp = preDate ∧ a.timestamp = allocDate
        ∧ e₂.timestamp = postDate
        ∧ Date.Before e₁.timestamp a.timestamp
        ∧ Date.Before a.timestamp e₂.timestamp := by
  unfold create_dataframes at hc
  injection hc with h1 h2
  injection h2 with h2 h3
  subst h1
  subst h2
  subst h3
  refine ⟨rfl, rfl, rfl, by decide, by decide, ?_⟩
  intro a ha
  obtain ⟨r, hr, rfl⟩ := List.mem_map.mp ha
  refine ⟨preEvent r, ?_, postEvent r, ?_, rfl, rfl, rfl, rfl, rfl,
    (by decide : Date.Before preDate allocDate),
    (by decide : Date.Before allocDate postDate)⟩
  · exact List.mem_append.mpr (Or.inr (List.mem_map_of_mem _ hr))
  · exact List.mem_append.mpr (Or.inl (List.mem_map_of_mem _ hr))

theorem timestamp_ordering_witness :
    Date.Before preDate allocDate ∧ Date.Before allocDate postDate :=
  ⟨(timestamp_ordering [userRow sampleParams sinZero (sourceOfSeed 40) 0]
      ((create_dataframes [userRow sampleParams sinZero (sourceOfSeed 40) 0]).1)
      ((create_dataframes [userRow sampleParams sinZero (sourceOfSeed 40) 0]).2.1)
      ((create_dataframes [userRow sampleParams sinZero (sourceOfSeed 40) 0]).2.2)
      rfl).2.2.2.1,
   (timestamp_ordering [userRow sampleParams sinZero (sourceOfSeed 40) 0]
      ((create_dataframes [userRow sampleParams sinZero (sourceOfSeed 40) 0]).1)
      ((create_dataframes [userRow sampleParams sinZero (sourceOfSeed 40) 0]).2.1)
      ((create_dataframes [userRow sampleParams sinZero (sourceOfSeed 40) 0]).2.2)
      rfl).2.2.2.2.1⟩

/-- C8: the group effect never enters the pre-period outcome —
`pre_test_value` is built only from the base effect, the category effect, the
engagement score and its own noise draws; holding every other draw fixed and
changing only the abgroup-assignment draws leaves `pre_test_value`
unchanged. -/
theorem pre_test_independent_of_group (p : GenParams) (sf : ℚ → ℚ)
    (d d' : Draws) (i : Nat)
    (hu : ∀ s u, s ≠ abgroupSite → d.unif s u = d'.unif s u)
    (hn : ∀ s u, d.norm s u = d'.norm s u) :
    preTestValueOf p sf d i
        = base_value p d i
            * (1 + (1 + 1/2 * d.norm preMulSite i) * categoryEffectOf p d i)
            * (1 + 1/20 * d.norm preFacSite i)
          + 1/2 * sf (engagementOf d i / 2)
              * uniformIn (-1) 1 (d.unif sinMultSite i)
          + (-1 + d.norm preAddSite i)
      ∧ preTestValueOf p sf d i = preTestValueOf p sf d' i := by
  have h0 : ∀ u, d.unif countrySite u = d'.unif countrySite u :=
    fun u => hu _ u (by decide)
  have h1 : ∀ u, d.unif platformSite u = d'.unif platformSite u :=
    fun u => hu _ u (by decide)
  have h2 : ∀ u, d.unif segmentSite u = d'.unif segmentSite u :=
    fun u => hu _ u (by decide)
  have h4 : ∀ u, d.unif ageSite u = d'.unif ageSite u :=
    fun u => hu _ u (by decide)
  have h5 : ∀ u, d.unif engagementSite u = d'.unif engagementSite u :=
    fun u => hu _ u (by decide)
  have h6 : ∀ u, d.unif countryMultSite u = d'.unif countryMultSite u :=
    fun u => hu _ u (by decide)
  have h7 : ∀ u, d.unif platformMultSite u = d'.unif platformMultSite u :=
    fun u => hu _ u (by decide)
  have h8 : ∀ u, d.unif segmentMultSite u = d'.unif segmentMultSite u :=
    fun u => hu _ u (by decide)
  have h11 : ∀ u, d.unif sinMultSite u = d'.unif sinMultSite u :=
    fun u => hu _ u (by decide)
  refine ⟨rfl, ?_⟩
  unfold preTestValueOf base_value ageOf engagementOf categoryEffectOf
    countryEffectOf platformEffectOf segmentEffectOf countryIdxOf
    platformIdxOf segmentIdxOf countryOf platformOf segmentOf
  simp only [h0, h1, h2, h4, h5, h6, h7, h8, h11, hn]

/-- A draw source equal to `sourceOfSeed 40` except at the abgroup-assignment
site. -/
def abFlipped : Draws :=
  { unif := fun s i => if s = abgroupSite then 0 else (sourceOfSeed 40).unif s i
    norm := (sourceOfSeed 40).norm }

theorem pre_test_independent_of_group_witness :
    preTestValueOf sampleParams sinZero (sourceOfSeed 40) 0
      = preTestValueOf sampleParams sinZero abFlipped 0 :=
  (pre_test_independent_of_group sampleParams sinZero (sourceOfSeed 40)
    abFlipped 0
    (fun s u h => by simp [abFlipped, h])
    (fun s u => rfl)).2

/-- C9: with single-element vocabularies (the spec's concrete scenario) every
bucket is 0, the category effect is 0 for every user, and `value` reduces
exactly to base_effect × (1 + group_effect) + noise. -/
theorem singleton_vocab_scenario (bip nl : ℚ) (d : Draws) (hv : d.Valid)
    (i : Nat) :
    countryIdxOf (scenarioParams bip nl) d i = 0
    ∧ platformIdxOf (scenarioParams bip nl) d i = 0
    ∧ segmentIdxOf (scenarioParams bip nl) d i = 0
    ∧ categoryEffectOf (scenarioParams bip nl) d i = 0
    ∧ valueOf (scenarioParams bip nl) d i
        = base_value (scenarioParams bip nl) d i
            * (1 + groupEffectOf (scenarioParams bip nl) d i)
          + nl * d.norm valueNoiseSite i := by
  have hc : countryIdxOf (scenarioParams bip nl) d i = 0 := by
    obtain ⟨h0, h1⟩ := hv countrySite i
    simp only [countryIdxOf, countryOf, scenarioParams]
    rw [show (["US"] : List String).length = 1 from rfl,
      choiceIdx_len_one _ h0 h1]
    rfl
  have hp : platformIdxOf (scenarioParams bip nl) d i = 0 := by
    obtain ⟨h0, h1⟩ := hv platformSite i
    simp only [platformIdxOf, platformOf, scenarioParams]
    rw [show (["iOS"] : List String).length = 1 from rfl,
      choiceIdx_len_one _ h0 h1]
    rfl
  have hs : segmentIdxOf (scenarioParams bip nl) d i = 0 := by
    obtain ⟨h0, h1⟩ := hv segmentSite i
    simp only [segmentIdxOf, segmentOf, scenarioParams]
    rw [show (["Segment_1"] : List String).length = 1 from rfl,
      choiceIdx_len_one _ h0 h1]
    rfl
  have hcat : categoryEffectOf (scenarioParams bip nl) d i = 0 := by
    unfold categoryEffectOf countryEffectOf platformEffectOf segmentEffectOf
    rw [hc, hp, hs]
    simp
  refine ⟨hc, hp, hs, hcat, ?_⟩
  unfold valueOf
  rw [hcat]
  have hnl : (scenarioParams bip nl).noiseLevel = nl := rfl
  rw [hnl]
  ring

theorem singleton_vocab_scenario_witness :
    countryIdxOf (scenarioParams 1 1) (sourceOfSeed 40) 0 = 0
    ∧ platformIdxOf (scenarioParams 1 1) (sourceOfSeed 40) 0 = 0
    ∧ segmentIdxOf (scenarioParams 1 1) (sourceOfSeed 40) 0 = 0
    ∧ categoryEffectOf (scenarioParams 1 1) (sourceOfSeed 40) 0 = 0
    ∧ valueOf (scenarioParams 1 1) (sourceOfSeed 40) 0
        = base_value (scenarioParams 1 1) (sourceOfSeed 40) 0
            * (1 + groupEffectOf (scenarioParams 1 1) (sourceOfSeed 40) 0)
          + 1 * (sourceOfSeed 40).norm valueNoiseSite 0 :=
  singleton_vocab_scenario 1 1 (sourceOfSeed 40) (sourceOfSeed_valid 40) 0

/-- C10: the treatment label of the effect model is the fixed literal "b",
not a function of the `ab_groups` argument: for every call, a user's group
effect is the treatment-range draw when their abgroup equals "b" and the
non-treatment-range draw when it does not; in particular, when "b" is not
among the supplied labels, every user's abgroup differs from "b" and every
user's group effect comes from the non-treatment range. -/
theorem treatment_label_literal_b (p : GenParams) (d : Draws) (i : Nat) :
    (abgroupOf p d i = "b" →
      groupEffectOf p d i
        = uniformIn (treatLo p) (treatHi p) (d.unif treatSite i))
    ∧ (abgroupOf p d i ≠ "b" →
      groupEffectOf p d i
        = uniformIn (ctrlLo p) (ctrlHi p) (d.unif ctrlSite i))
    ∧ (d.Valid → p.abGroups ≠ [] → "b" ∉ p.abGroups →
      abgroupOf p d i ≠ "b"
      ∧ groupEffectOf p d i
          = uniformIn (ctrlLo p) (ctrlHi p) (d.unif ctrlSite i)) := by
  refine ⟨fun h => by unfold groupEffectOf; rw [if_pos h],
    fun h => by unfold groupEffectOf; rw [if_neg h], ?_⟩
  intro hv hne hnb
  have hmem : abgroupOf p d i ∈ p.abGroups := by
    unfold abgroupOf
    obtain ⟨h0, h1⟩ := hv abgroupSite i
    have hlt := choiceIdx_lt p.abGroups.length _ h0 h1
      (List.length_pos.mpr hne)
    rw [List.getD_eq_getElem _ _ hlt]
    exact List.getElem_mem hlt
  have hneq : abgroupOf p d i ≠ "b" := fun h => hnb (h ▸ hmem)
  exact ⟨hneq, by unfold groupEffectOf; rw [if_neg hneq]⟩

/-- Parameters whose three group labels do not include "b". -/
def noBParams : GenParams :=
  { sampleParams with abGroups := ["a1", "a2", "c"] }

/-- A draw source whose abgroup-site raw draw 5/6 selects index
⌊(5/6)·3⌋ = 2, i.e. the label "b" of `sampleParams`. -/
def bDraws : Draws :=
  { unif := fun s i => if s = abgroupSite then 5/6 else (sourceOfSeed 40).unif s i
    norm := (sourceOfSeed 40).norm }

theorem treatment_label_literal_b_witness :
    groupEffectOf sampleParams bDraws 0
        = uniformIn (treatLo sampleParams) (treatHi sampleParams)
            (bDraws.unif treatSite 0)
    ∧ abgroupOf noBParams (sourceOfSeed 40) 0 ≠ "b"
    ∧ groupEffectOf noBParams (sourceOfSeed 40) 0
        = uniformIn (ctrlLo noBParams) (ctrlHi noBParams)
            ((sourceOfSeed 40).unif ctrlSite 0) :=
  ⟨(treatment_label_literal_b sampleParams bDraws 0).1
      (by with_unfolding_all decide),
   ((treatment_label_literal_b noBParams (sourceOfSeed 40) 0).2.2
      (sourceOfSeed_valid 40) (by decide) (by decide)).1,
   ((treatment_label_literal_b noBParams (sourceOfSeed 40) 0).2.2
      (sourceOfSeed_valid 40) (by decide) (by decide)).2⟩

theorem post_events_eq (p : GenParams) (sf : ℚ → ℚ) (d : Draws) :
    (genRows p sf d).map postEvent
      = (List.range p.numUsers.toNat).map (fun i => postEvent (userRow p sf d i)) := by
  unfold genRows
  rw [List.map_map]
  rfl

theorem pre_events_eq (p : GenParams) (sf : ℚ → ℚ) (d : Draws) :
    (genRows p sf d).map preEvent
      = (List.range p.numUsers.toNat).map (fun i => preEvent (userRow p sf d i)) := by
  unfold genRows
  rw [List.map_map]
  rfl

theorem alloc_rows_eq (p : GenParams) (sf : ℚ → ℚ) (d : Draws) :
    (genRows p sf d).map allocationOf
      = (List.range p.numUsers.toNat).map (fun i => allocationOf (userRow p sf d i)) := by
  unfold genRows
  rw [List.map_map]
  rfl

theorem prop_rows_eq (p : GenParams) (sf : ℚ → ℚ) (d : Draws) :
    (genRows p sf d).map propertyOf
      = (List.range p.numUsers.toNat).map (fun i => propertyOf (userRow p sf d i)) := by
  unfold genRows
  rw [List.map_map]
  rfl

theorem filter_post_pred_eq (p : GenParams) (sf : ℚ → ℚ) (d : Draws)
    (n uid : Nat) :
    ((List.range n).map (fun i => postEvent (userRow p sf d i))).filter
        (fun e => e.userid == uid && e.timestamp == postDate)
      = ((List.range n).map (fun i => postEvent (userRow p sf d i))).filter
        (fun e => e.userid == uid) := by
  apply List.filter_congr
  intro x hx
  obtain ⟨i, -, rfl⟩ := List.mem_map.mp hx
  simp [postEvent]

theorem filter_pre_pred_eq (p : GenParams) (sf : ℚ → ℚ) (d : Draws)
    (n uid : Nat) :
    ((List.range n).map (fun i => preEvent (userRow p sf d i))).filter
        (fun e => e.userid == uid && e.timestamp == preDate)
      = ((List.range n).map (fun i => preEvent (userRow p sf d i))).filter
        (fun e => e.userid == uid) := by
  apply List.filter_congr
  intro x hx
  obtain ⟨i, -, rfl⟩ := List.mem_map.mp hx
  simp [preEvent]

theorem filter_pre_events_post_nil (p : GenParams) (sf : ℚ → ℚ) (d : Draws)
    (n uid : Nat) :
    ((List.range n).map (fun i => preEvent (userRow p sf d i))).filter
        (fun e => e.userid == uid && e.timestamp == postDate) = [] := by
  rw [List.filter_eq_nil_iff]
  intro x hx
  obtain ⟨i, -, rfl⟩ := List.mem_map.mp hx
  simp [preEvent, show (preDate == postDate) = false from rfl]

theorem filter_post_events_pre_nil (p : GenParams) (sf : ℚ → ℚ) (d : Draws)
    (n uid : Nat) :
    ((List.range n).map (fun i => postEvent (userRow p sf d i))).filter
        (fun e => e.userid == uid && e.timestamp == preDate) = [] := by
  rw [List.filter_eq_nil_iff]
  intro x hx
  obtain ⟨i, -, rfl⟩ := List.mem_map.mp hx
  simp [postEvent, show (postDate == preDate) = false from rfl]

/-- C6: for a population table of N rows (`userid` = 1..N) the projector
returns an event log of exactly 2N rows in which each userid of 1..N occurs
exactly twice — once with the post-period timestamp carrying `value`, once
with the pre-period timestamp carrying `pre_test_value` — and an allocation
table and a properties table of N rows each in which each userid occurs
exactly once. -/
theorem projector_cardinality (p : GenParams) (sf : ℚ → ℚ) (d : Draws)
    (rows : List UserRow) (hg : generate_synthetic_data p sf d = .ok rows) :
    rows.length = p.numUsers.toNat
    ∧ (create_dataframes rows).1.length = 2 * p.numUsers.toNat
    ∧ (create_dataframes rows).2.1.length = p.numUsers.toNat
    ∧ (create_dataframes rows).2.2.length = p.numUsers.toNat
    ∧ ∀ uid, 1 ≤ uid → uid ≤ p.numUsers.toNat →
        ((create_dataframes rows).1.filter
            (fun e => e.userid == uid)).length = 2
        ∧ (create_dataframes rows).1.filter
            (fun e => e.userid == uid && e.timestamp == postDate)
            = [postEvent (userRow p sf d (uid - 1))]
        ∧ (create_dataframes rows).1.filter
            (fun e => e.userid == uid && e.timestamp == preDate)
            = [preEvent (userRow p sf d (uid - 1))]
        ∧ (postEvent (userRow p sf d (uid - 1))).purchase_value
            = valueOf p d (uid - 1)
        ∧ (preEvent (userRow p sf d (uid - 1))).purchase_value
            = preTestValueOf p sf d (uid - 1)
        ∧ (create_dataframes rows).2.1.filter (fun a => a.userid == uid)
            = [allocationOf (userRow p sf d (uid - 1))]
        ∧ (create_dataframes rows).2.2.filter (fun r => r.userid == uid)
            = [propertyOf (userRow p sf d (uid - 1))] := by
  obtain ⟨-, hrows⟩ := generate_ok_inv p sf d rows hg
  subst hrows
  refine ⟨?_, ?_, ?_, ?_, ?_⟩
  · simp [genRows]
  · simp only [create_dataframes]
    rw [List.length_append, post_events_eq, pre_events_eq]
    simp only [List.length_map, List.length_range]
    omega
  · simp only [create_dataframes]
    rw [alloc_rows_eq]
    simp
  · simp only [create_dataframes]
    rw [prop_rows_eq]
    simp
  · intro uid h1 h2
    refine ⟨?_, ?_, ?_, rfl, rfl, ?_, ?_⟩
    · simp only [create_dataframes]
      rw [List.filter_append, post_events_eq, pre_events_eq,
        filter_map_range_key (fun i => postEvent (userRow p sf d i))
          EventRow.userid (fun i => rfl) _ uid h1 h2,
        filter_map_range_key (fun i => preEvent (userRow p sf d i))
          EventRow.userid (fun i => rfl) _ uid h1 h2]
      rfl
    · simp only [create_dataframes]
      rw [List.filter_append, post_events_eq, pre_events_eq,
        filter_post_pred_eq,
        filter_map_range_key (fun i => postEvent (userRow p sf d i))
          EventRow.userid (fun i => rfl) _ uid h1 h2,
        filter_pre_events_post_nil, List.append_nil]
    · simp only [create_dataframes]
      rw [List.filter_append, post_events_eq, pre_events_eq,
        filter_post_events_pre_nil, filter_pre_pred_eq,
        filter_map_range_key (fun i => preEvent (userRow p sf d i))
          EventRow.userid (fun i => rfl) _ uid h1 h2,
        List.nil_append]
    · simp only [create_dataframes]
      rw [alloc_rows_eq,
        filter_map_range_key (fun i => allocationOf (userRow p sf d i))
          AllocationRow.userid (fun i => rfl) _ uid h1 h2]
    · simp only [create_dataframes]
      rw [prop_rows_eq,
        filter_map_range_key (fun i => propertyOf (userRow p sf d i))
          PropertyRow.userid (fun i => rfl) _ uid h1 h2]

theorem projector_cardinality_witness :
    (genRows sampleParams sinZero (sourceOfSeed 40)).length
        = sampleParams.numUsers.toNat
    ∧ ((create_dataframes (genRows sampleParams sinZero
          (sourceOfSeed 40))).1.filter (fun e => e.userid == 1)).length = 2
    ∧ (create_dataframes (genRows sampleParams sinZero
          (sourceOfSeed 40))).2.1.filter (fun a => a.userid == 1)
        = [allocationOf (userRow sampleParams sinZero (sourceOfSeed 40) 0)] :=
  ⟨(projector_cardinality sampleParams sinZero (sourceOfSeed 40)
      (genRows sampleParams sinZero (sourceOfSeed 40))
      (generate_ok_of _ _ _ (by decide))).1,
   ((projector_cardinality sampleParams sinZero (sourceOfSeed 40)
      (genRows sampleParams sinZero (sourceOfSeed 40))
      (generate_ok_of _ _ _ (by decide))).2.2.2.2 1 (by decide)
        (by decide)).1,
   ((projector_cardinality sampleParams sinZero (sourceOfSeed 40)
      (genRows sampleParams sinZero (sourceOfSeed 40))
      (generate_ok_of _ _ _ (by decide))).2.2.2.2 1 (by decide)
        (by decide)).2.2.2.2.2.1⟩

end DataGen
